import Mathlib

/-!
Verification of the blog-generation pipeline in create_blog.py.

The script is a linear four-step pipeline: find_trending_product queries a
shopping-search API and extracts the first result, get_seo_keywords and
create_blog_post each issue one generation request to a language-model API,
and save_as_markdown writes the final text to a file. We embed the script
shallowly: parsed JSON bodies become the inductive JVal, Python runtime
errors become the PyErr type, each network exchange is an environment value
(the response the one request of that step receives), and the filesystem is
an association list from file names to contents. Dynamic Python operations
(membership test, subscript, len, attribute access) are modelled with their
error behaviour, since the except clauses of the script are selective.
-/

/-- A parsed JSON value, as produced by response.json() of the search call.
Object fields are kept as an association list of string keys. -/
inductive JVal where
  | null
  | bool (b : Bool)
  | num (n : Int)
  | str (s : String)
  | list (xs : List JVal)
  | obj (kvs : List (String × JVal))

/-- Python runtime errors that the modelled operations can raise. -/
inductive PyErr where
  | typeError
  | keyError
  | indexError
  | attributeError
deriving DecidableEq, Repr

/-- Association-list lookup, modelling Python dict access for parsed JSON
objects (whose keys are unique after parsing). -/
def lookup (kvs : List (String × JVal)) (k : String) : Option JVal :=
  match kvs with
  | [] => none
  | (k1, v) :: rest => if k1 = k then some v else lookup rest k

/-- Equality of a Python value with a given string, as used by list
membership: a string equals only an equal string. -/
def eqStrKey (key : String) : JVal → Bool
  | .str s => s = key
  | _ => false

/-- Whether one character list starts with another. -/
def startsWithChars : List Char → List Char → Bool
  | _, [] => true
  | [], _ :: _ => false
  | h :: hs, n :: ns => h = n && startsWithChars hs ns

/-- Whether needle occurs as a contiguous run inside hay. -/
def hasSubChars (needle : List Char) : List Char → Bool
  | [] => startsWithChars [] needle
  | c :: hs => startsWithChars (c :: hs) needle || hasSubChars needle hs

/-- Python substring test needle in hay for strings. -/
def pyHasSubstr (needle hay : String) : Bool :=
  hasSubChars needle.toList hay.toList

/-- Python key in data. Dicts test key membership, lists test element
equality, strings test substring occurrence; other values raise
TypeError (argument not iterable). -/
def pyContainsKey (data : JVal) (key : String) : Except PyErr Bool :=
  match data with
  | .obj kvs => .ok (lookup kvs key).isSome
  | .list xs => .ok (xs.any (eqStrKey key))
  | .str s => .ok (pyHasSubstr key s)
  | _ => .error .typeError

/-- Python data[key] for a string key. Dicts look the key up (KeyError when
missing); lists and strings require integer indices (TypeError); other
values are not subscriptable (TypeError). -/
def pySubscript (data : JVal) (key : String) : Except PyErr JVal :=
  match data with
  | .obj kvs =>
    match lookup kvs key with
    | some v => .ok v
    | none => .error .keyError
  | _ => .error .typeError

/-- Python len(v): defined for strings, lists and dicts, TypeError
otherwise. -/
def pyLen : JVal → Except PyErr Nat
  | .str s => .ok s.length
  | .list xs => .ok xs.length
  | .obj kvs => .ok kvs.length
  | _ => .error .typeError

/-- Python v[0]: first element of a list, first character of a string
(IndexError when empty); dicts raise KeyError for the absent key 0, other
values TypeError. -/
def pyIndexZero : JVal → Except PyErr JVal
  | .list [] => .error .indexError
  | .list (x :: _) => .ok x
  | .str s =>
    match s.toList with
    | [] => .error .indexError
    | c :: _ => .ok (.str (String.mk [c]))
  | .obj _ => .error .keyError
  | _ => .error .typeError

/-- Python product.get(key): None-defaulting lookup on dicts; any other
receiver has no get attribute (AttributeError). -/
def pyGet (product : JVal) (key : String) : Except PyErr JVal :=
  match product with
  | .obj kvs => .ok ((lookup kvs key).getD .null)
  | _ => .error .attributeError

/-- The record built by find_trending_product from the first shopping
result: the values of the title, price, source and link keys (None when a
key is absent, since the script uses dict.get). -/
structure ProductInfo where
  title : JVal
  price : JVal
  source : JVal
  link : JVal

/-- Outcome of the search exchange of find_trending_product: either some
requests.exceptions.RequestException was raised (connection error,
raise_for_status on a bad status, or a JSON decode error from
response.json(), which requests raises as a RequestException subclass), or
a parsed JSON body. -/
inductive SerpResult where
  | failure (msg : String)
  | parsed (body : JVal)

/-- find_trending_product: on a parsed body, tests shopping_results in data
and len(data[shopping_results]) > 0 with short-circuit, then extracts the
first result's fields with dict.get. The except clause catches only
RequestException, so TypeError/KeyError/AttributeError raised by the
dynamic operations on an unexpected body shape propagate out (.error);
a caught request failure prints and returns None (.ok none). -/
def find_trending_product (query : String) (serp : SerpResult) :
    Except PyErr (Option ProductInfo) :=
  match serp with
  | .failure _ => .ok none
  | .parsed data =>
    match pyContainsKey data "shopping_results" with
    | .error e => .error e
    | .ok false => .ok none
    | .ok true =>
      match pySubscript data "shopping_results" with
      | .error e => .error e
      | .ok results =>
        match pyLen results with
        | .error e => .error e
        | .ok n =>
          if n > 0 then
            match pyIndexZero results with
            | .error e => .error e
            | .ok product =>
              match pyGet product "title" with
              | .error e => .error e
              | .ok t =>
                match pyGet product "price" with
                | .error e => .error e
                | .ok pr =>
                  match pyGet product "source" with
                  | .error e => .error e
                  | .ok so =>
                    match pyGet product "link" with
                    | .error e => .error e
                    | .ok li => .ok (some ⟨t, pr, so, li⟩)
          else .ok none

mutual
/-- Python repr of a value, as interpolated for non-string values inside
container display. String escaping is not modelled (no claim inspects the
rendering of containers). -/
def pyRepr : JVal → String
  | .null => "None"
  | .bool b => if b then "True" else "False"
  | .num n => toString n
  | .str s => "\x27" ++ s ++ "\x27"
  | .list xs => "[" ++ pyReprItems xs ++ "]"
  | .obj kvs => "\x7b" ++ pyReprPairs kvs ++ "\x7d"
def pyReprItems : List JVal → String
  | [] => ""
  | [v] => pyRepr v
  | v :: w :: rest => pyRepr v ++ ", " ++ pyReprItems (w :: rest)
def pyReprPairs : List (String × JVal) → String
  | [] => ""
  | [kv] => "\x27" ++ kv.1 ++ "\x27: " ++ pyRepr kv.2
  | kv :: kw :: rest =>
    "\x27" ++ kv.1 ++ "\x27: " ++ pyRepr kv.2 ++ ", " ++ pyReprPairs (kw :: rest)
end

/-- Python str(v), as produced by f-string interpolation: strings verbatim,
None/True/False/numbers by their display form, containers by repr. -/
def pyStr : JVal → String
  | .str s => s
  | v => pyRepr v

/-- Python whitespace, for str.strip and str.rstrip (ASCII range). -/
def pyIsSpace (c : Char) : Bool :=
  c = ' ' || c = '\t' || c = '\n' || c = '\r' || c = '\x0b' || c = '\x0c'

/-- Python s.strip(): drop whitespace from both ends. -/
def pyStrip (s : String) : String :=
  String.mk (((s.toList.dropWhile pyIsSpace).reverse.dropWhile pyIsSpace).reverse)

/-- Python s.rstrip(): drop whitespace from the right end only. -/
def pyRStrip (s : String) : String :=
  String.mk ((s.toList.reverse.dropWhile pyIsSpace).reverse)

/-- Python s.split on a comma over a character list: every occurrence of
the separator cuts, empty segments are kept, the empty input gives one
empty segment. -/
def splitCommaChars : List Char → List (List Char)
  | [] => [[]]
  | c :: rest =>
    let r := splitCommaChars rest
    if c = ',' then [] :: r
    else
      match r with
      | [] => [[c]]
      | g :: gs => (c :: g) :: gs

/-- Python s.split(",") on strings. -/
def pySplitComma (s : String) : List String :=
  (splitCommaChars s.toList).map String.mk

/-- Python sep.join(items) for string items. -/
def pyJoin (sep : String) : List String → String
  | [] => ""
  | [x] => x
  | x :: y :: rest => x ++ sep ++ pyJoin sep (y :: rest)

/-- Outcome of one generation request: either the call (or reading
response.text, both inside the try) raised — caught by except Exception —
or a text response was obtained. -/
inductive GenResult where
  | failure (msg : String)
  | text (t : String)

/-- The prompt built by get_seo_keywords (the f-string of lines 58-66 with
the product fields interpolated). -/
def seoPrompt (p : ProductInfo) : String :=
  "\n    You are an SEO expert. Based on the following product information, generate 3-4 relevant, long-tail SEO keywords.\n    These keywords should be what a customer might search for when looking to buy this product.\n    Return only the keywords, separated by commas. Do not add any extra text or labels.\n\n    Product Title: "
    ++ pyStr p.title
    ++ "\n    Product Price: "
    ++ pyStr p.price
    ++ "\n    Sold By: "
    ++ pyStr p.source
    ++ "\n    "

/-- get_seo_keywords: sends seoPrompt to the generation API; on a text
response splits on commas and strips each segment; the except Exception
clause turns any raised error into None. Prompt construction itself cannot
raise, so the step never propagates an exception. -/
def get_seo_keywords (gen : String → GenResult) (p : ProductInfo) :
    Option (List String) :=
  match gen (seoPrompt p) with
  | .failure _ => none
  | .text t => some ((pySplitComma t).map pyStrip)

/-- The prompt built by create_blog_post (the f-string of lines 82-92 with
the keywords joined by a comma-space and the product fields interpolated). -/
def blogPrompt (p : ProductInfo) (keywords : List String) : String :=
  "\n    You are a friendly and persuasive blog writer. Write a short blog post of about 150-200 words for the following product.\n    The tone should be enthusiastic and helpful.\n    Start with an engaging headline.\n    Naturally incorporate the following SEO keywords into the text: "
    ++ pyJoin ", " keywords
    ++ ".\n    End with a call to action inviting readers to check out the product link.\n\n    Product Title: "
    ++ pyStr p.title
    ++ "\n    Price: "
    ++ pyStr p.price
    ++ "\n    Available at: "
    ++ pyStr p.source
    ++ "\n    "

/-- create_blog_post: sends blogPrompt to the generation API; on a text
response returns the stripped text; except Exception turns any raised
error into None. -/
def create_blog_post (gen : String → GenResult) (p : ProductInfo)
    (keywords : List String) : Option String :=
  match gen (blogPrompt p keywords) with
  | .failure _ => none
  | .text t => some (pyStrip t)

/-- The filter of the filename generator: x.isalnum() or x in a string of
space, underscore, hyphen — for one character of a string title.
Char.isAlphanum models str.isalnum on the ASCII range. -/
def keepChar (c : Char) : Bool :=
  c.isAlphanum || c = ' ' || c = '_' || c = '-'

/-- A non-character element x of the generator when the title is a list:
x.isalnum() requires a string receiver (AttributeError otherwise); for a
string it is true when non-empty and all alphanumeric, and x in a string of
space, underscore, hyphen is a substring test. Returns the element when it
is kept, none when filtered out. -/
def elemKeep : JVal → Except PyErr (Option String)
  | .str x =>
    .ok (if (!x.isEmpty && x.toList.all Char.isAlphanum) || pyHasSubstr x " _-"
         then some x else none)
  | _ => .error .attributeError

/-- The join of the kept elements of an iterated value, with the first
raising element propagating its error. -/
def joinKept : List JVal → Except PyErr String
  | [] => .ok ""
  | v :: rest =>
    match elemKeep v with
    | .error e => .error e
    | .ok none => joinKept rest
    | .ok (some s) =>
      match joinKept rest with
      | .error e => .error e
      | .ok r => .ok (s ++ r)

/-- The expression joining the filtered title characters in
save_as_markdown (line 107): iterating a string yields its characters,
iterating a list yields its elements, iterating a dict yields its keys;
None, numbers and booleans are not iterable (TypeError). This line sits
before the try block of the function, so its errors propagate out. -/
def pySanitizeJoin : JVal → Except PyErr String
  | .str s => .ok (String.mk (s.toList.filter keepChar))
  | .list xs => joinKept xs
  | .obj kvs => joinKept (kvs.map (fun kv => JVal.str kv.1))
  | _ => .error .typeError

/-- The file name save_as_markdown derives from the product title:
the joined kept characters, right-stripped, plus the markdown extension. -/
def save_filename (title : JVal) : Except PyErr String :=
  match pySanitizeJoin title with
  | .error e => .error e
  | .ok joined => .ok (pyRStrip joined ++ ".md")

/-- The full content save_as_markdown writes (line 111): the article text,
a horizontal rule, and the call-to-action line interpolating the original
title and link. -/
def save_full_content (p : ProductInfo) (blog : String) : String :=
  blog ++ "\n\n---\n\n**Find it here:** [" ++ pyStr p.title ++ "](" ++ pyStr p.link ++ ")"

/-- The filesystem: an association list from file names to contents. -/
def Fs := List (String × String)

/-- Opening a file in write mode and writing: the entry of that name is
replaced, or appended when absent. -/
def fsWrite (fs : Fs) (name content : String) : Fs :=
  match fs with
  | [] => [(name, content)]
  | (n, c) :: rest =>
    if n = name then (name, content) :: rest else (n, c) :: fsWrite rest name content

/-- The environment of one pipeline run: the query, the response the search
request receives, the response each generation prompt receives, and whether
the filesystem accepts a given write (open/write errors are caught by
save_as_markdown). -/
structure Env where
  query : String
  serp : SerpResult
  gen : String → GenResult
  writeOk : String → String → Bool

/-- save_as_markdown: derives the file name (outside the try block, so its
errors propagate), builds the full content, and writes it; a write failure
is caught and printed, leaving the filesystem unchanged. -/
def save_as_markdown (env : Env) (p : ProductInfo) (blog : String) (fs : Fs) :
    Except PyErr Fs :=
  match save_filename p.title with
  | .error e => .error e
  | .ok filename =>
    if env.writeOk filename (save_full_content p blog)
    then .ok (fsWrite fs filename (save_full_content p blog))
    else .ok fs

/-- The pipeline steps, in invocation order. -/
inductive Step where
  | finder
  | keywords
  | writer
  | publisher
deriving DecidableEq, Repr

/-- The observable outcome of one run of main: which steps were invoked,
the final filesystem, and the uncaught exception reaching the process
boundary, if any. -/
structure RunResult where
  calls : List Step
  fs : Fs
  err : Option PyErr

/-- main: runs the four steps in order; each of the three truthiness tests
(a found product dict is always non-empty hence truthy, a keyword list is
truthy when non-empty, an article string is truthy when non-empty) guards
the next step; an uncaught exception aborts the run with the filesystem
unchanged by the raising step. -/
def mainRun (env : Env) (fs : Fs) : RunResult :=
  match find_trending_product env.query env.serp with
  | .error e => ⟨[Step.finder], fs, some e⟩
  | .ok none => ⟨[Step.finder], fs, none⟩
  | .ok (some product) =>
    match get_seo_keywords env.gen product with
    | none => ⟨[Step.finder, Step.keywords], fs, none⟩
    | some keywords =>
      if keywords = [] then ⟨[Step.finder, Step.keywords], fs, none⟩
      else
        match create_blog_post env.gen product keywords with
        | none => ⟨[Step.finder, Step.keywords, Step.writer], fs, none⟩
        | some blog =>
          if blog = "" then ⟨[Step.finder, Step.keywords, Step.writer], fs, none⟩
          else
            match save_as_markdown env product blog fs with
            | .error e => ⟨[Step.finder, Step.keywords, Step.writer, Step.publisher], fs, some e⟩
            | .ok fs1 => ⟨[Step.finder, Step.keywords, Step.writer, Step.publisher], fs1, none⟩

/-- The product of the spec's Article Writer example. -/
def acmeProduct : ProductInfo :=
  ⟨.str "Acme Trail Shoe X1", .str "$59.99", .str "Acme Store", .str "https://example.com/x1"⟩

/-- The keyword list of the spec's Article Writer example. -/
def acmeKeywords : List String := ["trail shoes", "lightweight running shoes"]

/-- The object fields of a search result carrying the example product. -/
def acmeFields : List (String × JVal) :=
  [("title", .str "Acme Trail Shoe X1"), ("price", .str "$59.99"),
   ("source", .str "Acme Store"), ("link", .str "https://example.com/x1")]

/-- A parsed search body whose results list holds the example product. -/
def acmeBody : JVal := .obj [("shopping_results", .list [.obj acmeFields])]

/-- An environment whose first search result lacks the title key, so the
extracted product gets a None title; both generation calls answer with text
and the filesystem accepts every write. -/
def missingTitleEnv : Env :=
  ⟨"best running shoes",
   .parsed (.obj [("shopping_results",
     .list [.obj [("price", .str "$59.99"), ("source", .str "Acme Store"),
                  ("link", .str "https://example.com/x1")]])]),
   fun _ => .text "trail shoes, lightweight running shoes",
   fun _ _ => true⟩

/-- An environment that finds the example product and whose generation API
answers every prompt with the empty string. -/
def emptyGenEnv : Env :=
  ⟨"best running shoes", .parsed acmeBody, fun _ => .text "", fun _ _ => true⟩

/-- The Publisher file name as the spec words it: keep, in order, exactly
the characters that are alphanumeric or one of space, underscore, hyphen;
trim trailing whitespace; append the markdown extension. -/
def specFileName (title : String) : String :=
  pyRStrip (String.mk (title.toList.filter
    (fun c => c.isAlphanum || c = ' ' || c = '_' || c = '-'))) ++ ".md"

/-- A response carrying a usable results list, as the spec words it: the
parsed body is an object whose shopping_results key holds a non-empty
list. -/
def specResultsPresent (data : JVal) : Prop :=
  ∃ kvs xs, data = JVal.obj kvs ∧
    lookup kvs "shopping_results" = some (JVal.list xs) ∧ xs ≠ []

/-- A search outcome whose parsed body, if any, is an object whose
shopping_results value, if present, is a list. -/
def serpWellTyped (serp : SerpResult) : Prop :=
  ∀ data, serp = SerpResult.parsed data →
    ∃ kvs, data = JVal.obj kvs ∧
      ∀ v, lookup kvs "shopping_results" = some v → ∃ xs, v = JVal.list xs

/-- Occurrence of needle as a contiguous substring of hay. -/
def ContainsStr (hay needle : String) : Prop :=
  ∃ a b, hay = a ++ needle ++ b

theorem splitCommaChars_ne_nil (l : List Char) : splitCommaChars l ≠ [] := by
  cases l with
  | nil => simp [splitCommaChars]
  | cons c rest =>
    simp only [splitCommaChars]
    split
    · simp
    · split <;> simp

theorem get_seo_keywords_ne_nil (gen : String → GenResult) (p : ProductInfo)
    (ks : List String) (h : get_seo_keywords gen p = some ks) : ks ≠ [] := by
  unfold get_seo_keywords at h
  cases hg : gen (seoPrompt p) with
  | failure m => rw [hg] at h; cases h
  | text t =>
    rw [hg] at h
    injection h with h
    subst h
    simp only [ne_eq, List.map_eq_nil_iff, pySplitComma]
    exact splitCommaChars_ne_nil _

theorem fsWrite_idem (fs : Fs) (name content : String) :
    fsWrite (fsWrite fs name content) name content = fsWrite fs name content := by
  induction fs with
  | nil => simp [fsWrite]
  | cons hd rest ih =>
    obtain ⟨m, d⟩ := hd
    by_cases hm : m = name
    · subst hm; simp [fsWrite]
    · simp [fsWrite, hm, ih]

theorem containsStr_pyJoin (sep k : String) (ks : List String) (h : k ∈ ks) :
    ContainsStr (pyJoin sep ks) k := by
  induction ks with
  | nil => cases h
  | cons x rest ih =>
    cases rest with
    | nil =>
      have hx : k = x := by simpa using h
      subst hx
      exact ⟨"", "", by simp [pyJoin, String.append_empty, String.empty_append]⟩
    | cons y t =>
      rcases List.mem_cons.mp h with hx | hmem
      · subst hx
        exact ⟨"", sep ++ pyJoin sep (y :: t),
          by simp [pyJoin, String.append_assoc, String.empty_append]⟩
      · obtain ⟨a, b, hab⟩ := ih hmem
        exact ⟨x ++ sep ++ a, b, by simp [pyJoin, hab, String.append_assoc]⟩

theorem containsStr_append_left {mid k : String} (x : String)
    (h : ContainsStr mid k) : ContainsStr (x ++ mid) k := by
  obtain ⟨a, b, rfl⟩ := h
  exact ⟨x ++ a, b, by simp [String.append_assoc]⟩

theorem containsStr_append_right {hay k : String} (y : String)
    (h : ContainsStr hay k) : ContainsStr (hay ++ y) k := by
  obtain ⟨a, b, rfl⟩ := h
  exact ⟨a, b ++ y, by simp [String.append_assoc]⟩

/-- C1: when a pipeline step returns the failure indicator None, the
orchestrator invokes no later step, writes no file, and lets no exception
escape: a failed Finder stops the run after step one, a failed Keyword
Generator after step two, a failed Article Writer after step three, each
with the filesystem unchanged. -/
theorem C1_short_circuit (env : Env) (fs : Fs) :
    (find_trending_product env.query env.serp = .ok none →
      mainRun env fs = ⟨[Step.finder], fs, none⟩) ∧
    (∀ p, find_trending_product env.query env.serp = .ok (some p) →
      get_seo_keywords env.gen p = none →
      mainRun env fs = ⟨[Step.finder, Step.keywords], fs, none⟩) ∧
    (∀ p ks, find_trending_product env.query env.serp = .ok (some p) →
      get_seo_keywords env.gen p = some ks →
      create_blog_post env.gen p ks = none →
      mainRun env fs = ⟨[Step.finder, Step.keywords, Step.writer], fs, none⟩) := by
  refine ⟨fun h1 => ?_, fun p h1 h2 => ?_, fun p ks h1 h2 h3 => ?_⟩
  · simp [mainRun, h1]
  · simp [mainRun, h1, h2]
  · have hne := get_seo_keywords_ne_nil env.gen p ks h2
    simp [mainRun, h1, h2, hne, h3]

/-- Witness for C1 at a concrete environment whose search call fails. -/
theorem C1_short_circuit_witness :
    mainRun ⟨"best running shoes", SerpResult.failure "connection error",
        fun _ => GenResult.failure "unused", fun _ _ => true⟩ [] =
      ⟨[Step.finder], [], none⟩ :=
  (C1_short_circuit ⟨"best running shoes", SerpResult.failure "connection error",
    fun _ => GenResult.failure "unused", fun _ _ => true⟩ []).1 rfl

/-- C2: on a parsed body that is an object whose shopping_results key holds
a non-empty list whose first element is a result object, the Finder returns
a ProductInfo whose fields are exactly the title, price, source and link
values of that first element; on an object body whose results list is
absent or empty, the Finder returns None. -/
theorem C2_finder_first_result (q : String) :
    (∀ kvs fkvs rest t pr so li,
      lookup kvs "shopping_results" = some (JVal.list (JVal.obj fkvs :: rest)) →
      lookup fkvs "title" = some t → lookup fkvs "price" = some pr →
      lookup fkvs "source" = some so → lookup fkvs "link" = some li →
      find_trending_product q (.parsed (.obj kvs)) = .ok (some ⟨t, pr, so, li⟩)) ∧
    (∀ kvs, lookup kvs "shopping_results" = none →
      find_trending_product q (.parsed (.obj kvs)) = .ok none) ∧
    (∀ kvs, lookup kvs "shopping_results" = some (JVal.list []) →
      find_trending_product q (.parsed (.obj kvs)) = .ok none) := by
  refine ⟨fun kvs fkvs rest t pr so li h ht hp hs hl => ?_,
    fun kvs h => ?_, fun kvs h => ?_⟩
  · simp [find_trending_product, pyContainsKey, pySubscript, pyLen, pyIndexZero,
      pyGet, h, ht, hp, hs, hl]
  · simp [find_trending_product, pyContainsKey, h]
  · simp [find_trending_product, pyContainsKey, pySubscript, pyLen, h]

/-- Witness for C2 at the concrete example body. -/
theorem C2_finder_first_result_witness :
    find_trending_product "best running shoes" (.parsed acmeBody) =
      .ok (some ⟨.str "Acme Trail Shoe X1", .str "$59.99", .str "Acme Store",
                 .str "https://example.com/x1"⟩) :=
  (C2_finder_first_result "best running shoes").1 _ _ _ _ _ _ _ rfl rfl rfl rfl rfl

/-- C3 counterexample: the parsed body 42 carries no results list, yet the
Finder raises an uncaught TypeError (the membership test on a non-iterable
value) instead of returning None analogously to the claim. -/
theorem C3_counterexample :
    ¬ specResultsPresent (JVal.num 42) ∧
    find_trending_product "best running shoes" (SerpResult.parsed (JVal.num 42)) =
      .error PyErr.typeError := by
  constructor
  · rintro ⟨kvs, xs, h, -, -⟩
    cases h
  · rfl

/-- C3 amended: restricted to search outcomes whose parsed body is an
object in which shopping_results, when present, maps to a list, the Finder
returns None exactly when the request fails (HTTP error or unparseable
body, both raised as a caught RequestException) or that list is absent or
empty — and in each such case it returns None rather than raising. -/
theorem C3_finder_failure_cases (q : String) (serp : SerpResult)
    (hw : serpWellTyped serp) :
    find_trending_product q serp = .ok none ↔
      (∃ m, serp = SerpResult.failure m) ∨
      (∃ kvs, serp = SerpResult.parsed (JVal.obj kvs) ∧
        (lookup kvs "shopping_results" = none ∨
         lookup kvs "shopping_results" = some (JVal.list []))) := by
  cases serp with
  | failure m =>
    constructor
    · intro _
      exact Or.inl ⟨m, rfl⟩
    · intro _
      rfl
  | parsed data =>
    obtain ⟨kvs, rfl, htyped⟩ := hw data rfl
    constructor
    · intro hnone
      right
      refine ⟨kvs, rfl, ?_⟩
      cases hk : lookup kvs "shopping_results" with
      | none => exact Or.inl rfl
      | some v =>
        obtain ⟨xs, rfl⟩ := htyped v hk
        cases xs with
        | nil => exact Or.inr rfl
        | cons x tail =>
          exfalso
          cases x <;>
            simp [find_trending_product, pyContainsKey, pySubscript, pyLen,
              pyIndexZero, pyGet, hk] at hnone
    · rintro (⟨m, hm⟩ | ⟨kvs2, hkv, hcase⟩)
      · exact SerpResult.noConfusion hm
      · have h2 : JVal.obj kvs = JVal.obj kvs2 := by injection hkv
        have h3 : kvs = kvs2 := by injection h2
        subst h3
        rcases hcase with hk | hk
        · simp [find_trending_product, pyContainsKey, hk]
        · simp [find_trending_product, pyContainsKey, pySubscript, pyLen, hk]

/-- Witness for C3 at a concrete failing request. -/
theorem C3_finder_failure_cases_witness :
    find_trending_product "best running shoes" (SerpResult.failure "timeout") =
      .ok none :=
  (C3_finder_failure_cases "best running shoes" (SerpResult.failure "timeout")
    (fun _ hd => SerpResult.noConfusion hd)).mpr (Or.inl ⟨"timeout", rfl⟩)

/-- C4: evaluation at the failing input. With a search result lacking the
title key the Finder succeeds with a None title and both generation calls
succeed, but save_as_markdown raises a TypeError while sanitizing the
file name (iterating None), a line that sits before its try block, so the
exception reaches the process boundary uncaught and no file is written. -/
theorem C4_uncaught_typeerror :
    mainRun missingTitleEnv [] =
      ⟨[Step.finder, Step.keywords, Step.writer, Step.publisher], [],
       some PyErr.typeError⟩ := rfl

/-- C5: whenever the keyword generation call succeeds with some response
text, get_seo_keywords returns the segments of that text split on commas,
each stripped of leading and trailing whitespace, in order. -/
theorem C5_keyword_split (p : ProductInfo) (gen : String → GenResult) (t : String)
    (h : gen (seoPrompt p) = GenResult.text t) :
    get_seo_keywords gen p = some ((pySplitComma t).map pyStrip) := by
  unfold get_seo_keywords
  rw [h]

/-- Witness for C5 at the spec's example response. -/
theorem C5_keyword_split_witness :
    get_seo_keywords
        (fun _ => GenResult.text "running shoes, best trail shoes, lightweight sneakers")
        acmeProduct =
      some ["running shoes", "best trail shoes", "lightweight sneakers"] := by
  have h := C5_keyword_split acmeProduct
    (fun _ => GenResult.text "running shoes, best trail shoes, lightweight sneakers")
    "running shoes, best trail shoes, lightweight sneakers" rfl
  rw [h]
  decide

/-- C6: for every string title, the Publisher file name equals the spec's
description — keep exactly the characters that are alphanumeric or one of
space, underscore, hyphen, trim trailing whitespace, append the markdown
extension — and the spec's example title yields its stated file name. -/
theorem C6_publisher_filename :
    (∀ s : String, save_filename (JVal.str s) = .ok (specFileName s)) ∧
    save_filename (JVal.str "Acme Trail Shoe: X1!") = .ok "Acme Trail Shoe X1.md" :=
  ⟨fun _ => rfl, rfl⟩

/-- C7: for every product with string title and link and every article
text, the written content is the article followed by a blank-line-separated
horizontal rule and a final line interpolating the original unsanitized
title and the link; at the spec's example the content ends with the exact
stated call-to-action line. -/
theorem C7_publisher_content :
    (∀ (ts ls : String) (pr so : JVal) (blog : String),
      save_full_content ⟨JVal.str ts, pr, so, JVal.str ls⟩ blog =
        blog ++ "\n\n---\n\n**Find it here:** [" ++ ts ++ "](" ++ ls ++ ")") ∧
    save_full_content ⟨JVal.str "Acme Trail Shoe: X1!", JVal.str "$59.99",
        JVal.str "Acme Store", JVal.str "https://example.com/x1"⟩
        "Meet your new favorite shoe." =
      "Meet your new favorite shoe.\n\n---\n\n**Find it here:** [Acme Trail Shoe: X1!](https://example.com/x1)" :=
  ⟨fun _ _ _ _ _ => rfl, by decide⟩

/-- C8 counterexample: with an empty-string generation response the call
succeeds and the Article Writer returns the empty string, not a non-empty
text as the claim states. -/
theorem C8_counterexample :
    create_blog_post (fun _ => GenResult.text "") acmeProduct acmeKeywords =
      some "" ∧ ("" : String).isEmpty = true :=
  ⟨rfl, rfl⟩

/-- C8 amended: for every product and keyword list, the prompt the Article
Writer sends embeds every keyword of the list verbatim (the comma-space
join of the keywords is part of the prompt text), and on a successful call
it returns the stripped response text, with no non-emptiness guarantee. -/
theorem C8_prompt_keywords (p : ProductInfo) (ks : List String)
    (gen : String → GenResult) :
    (∀ k, k ∈ ks → ContainsStr (blogPrompt p ks) k) ∧
    (∀ t, gen (blogPrompt p ks) = GenResult.text t →
      create_blog_post gen p ks = some (pyStrip t)) := by
  constructor
  · intro k hk
    unfold blogPrompt
    exact containsStr_append_right _ (containsStr_append_right _
      (containsStr_append_right _ (containsStr_append_right _
      (containsStr_append_right _ (containsStr_append_right _
      (containsStr_append_right _ (containsStr_append_left _
      (containsStr_pyJoin ", " k ks hk))))))))
  · intro t ht
    unfold create_blog_post
    rw [ht]

/-- Witness for C8 at the spec's example product and keywords. -/
theorem C8_prompt_keywords_witness :
    ContainsStr (blogPrompt acmeProduct acmeKeywords) "trail shoes" ∧
    ContainsStr (blogPrompt acmeProduct acmeKeywords) "lightweight running shoes" ∧
    create_blog_post (fun _ => GenResult.text "  Lace up and go!  ")
      acmeProduct acmeKeywords = some "Lace up and go!" := by
  refine ⟨(C8_prompt_keywords acmeProduct acmeKeywords
      (fun _ => GenResult.text "  Lace up and go!  ")).1 _ (by decide),
    (C8_prompt_keywords acmeProduct acmeKeywords
      (fun _ => GenResult.text "  Lace up and go!  ")).1 _ (by decide), ?_⟩
  have h := (C8_prompt_keywords acmeProduct acmeKeywords
    (fun _ => GenResult.text "  Lace up and go!  ")).2 "  Lace up and go!  " rfl
  rw [h]
  decide

/-- C9: one run of the pipeline is idempotent at the filesystem — running
main again on the filesystem a first run produced, with the identical
query and identical API responses, yields the identical outcome: the same
file name is overwritten with the same content and the state is unchanged. -/
theorem C9_idempotent (env : Env) (fs : Fs) :
    mainRun env ((mainRun env fs).fs) = mainRun env fs := by
  unfold mainRun
  cases h1 : find_trending_product env.query env.serp with
  | error e => simp
  | ok op =>
    cases op with
    | none => simp
    | some p =>
      cases h2 : get_seo_keywords env.gen p with
      | none => simp [h2]
      | some ks =>
        by_cases hks : ks = []
        · simp [h2, hks]
        · cases h3 : create_blog_post env.gen p ks with
          | none => simp [h2, hks, h3]
          | some blog =>
            by_cases hb : blog = ""
            · simp [h2, hks, h3, hb]
            · unfold save_as_markdown
              cases h4 : save_filename p.title with
              | error e => simp [h2, hks, h3, hb, h4]
              | ok fname =>
                by_cases hw : env.writeOk fname (save_full_content p blog)
                · simp [h2, hks, h3, hb, h4, hw, fsWrite_idem]
                · simp [h2, hks, h3, hb, h4, hw]

/-- C10: a successful keyword generation call never yields the failure
indicator, whatever its text; in particular an empty response text yields
the one-element list holding the empty string, which the orchestrator
treats as success (a non-empty Python list is truthy), so the Article
Writer is still invoked. -/
theorem C10_empty_keywords (env : Env) (fs : Fs) (p : ProductInfo) :
    (∀ t, env.gen (seoPrompt p) = GenResult.text t →
      get_seo_keywords env.gen p ≠ none) ∧
    (find_trending_product env.query env.serp = .ok (some p) →
      env.gen (seoPrompt p) = GenResult.text "" →
      get_seo_keywords env.gen p = some [""] ∧
      Step.writer ∈ (mainRun env fs).calls) := by
  constructor
  · intro t ht
    simp [get_seo_keywords, ht]
  · intro hf hg
    have hk : get_seo_keywords env.gen p = some [""] := by
      unfold get_seo_keywords
      rw [hg]
      decide
    refine ⟨hk, ?_⟩
    cases h3 : create_blog_post env.gen p [""] with
    | none => simp [mainRun, hf, hk, h3]
    | some blog =>
      by_cases hb : blog = ""
      · simp [mainRun, hf, hk, h3, hb]
      · cases h4 : save_as_markdown env p blog fs with
        | error e => simp [mainRun, hf, hk, h3, hb, h4]
        | ok fs1 => simp [mainRun, hf, hk, h3, hb, h4]

/-- Witness for C10 at a concrete environment whose generation API answers
the empty string. -/
theorem C10_empty_keywords_witness :
    get_seo_keywords emptyGenEnv.gen acmeProduct = some [""] ∧
    Step.writer ∈ (mainRun emptyGenEnv []).calls :=
  (C10_empty_keywords emptyGenEnv [] acmeProduct).2 rfl rfl
